import Mathlib

/-!
Shallow embedding of the RRD binary-archive decoder of
`src/lib/rrdFile.js` (javascriptrrd): the `RRDDS`, `RRDRRA`, `RRDHeader`
and `RRDFile` classes.  JavaScript numbers that the decoder handles are
integers (offsets, counts, indices), so they are modelled as `Int` where a
caller may pass anything (indices, offsets) and as `Nat` where the value
comes from an unsigned 32-bit read (counts, the head pointer).  A thrown
exception is modelled as the `.error` case of `Except`.
-/

/-- Model of a `double` read out of the byte buffer.  The only operation the
decoder performs on a double it reads is comparison against the literal
`8.642135e+130` (the alignment sentinel, `FLOAT_COOKIE` in rrdtool), so a
double is either that sentinel or some other bit pattern. -/
inductive DoubleVal where
  | cookie : DoubleVal
  | other : Nat → DoubleVal
deriving DecidableEq

/-- The BinaryFile collaborator interface (`binaryXHR.js`): fixed-width reads
at an absolute byte offset.  `getByteAt`, `getShortAt` and `getLongAt` return
unsigned values, hence `Nat`; `getCStringAt idx maxsize` returns the
0-terminated string of at most `maxsize` characters starting at `idx`. -/
structure BinaryFile where
  getByteAt : Int → Nat
  getShortAt : Int → Nat
  getLongAt : Int → Nat
  getDoubleAt : Int → DoubleVal
  getFastDoubleAt : Int → DoubleVal
  getCStringAt : Int → Nat → String

/-- Errors thrown by the decoder: `InvalidRRD` objects (construction-time
failures) and JavaScript `RangeError`s (index bounds failures), each carrying
its message string. -/
inductive JSError where
  | invalidRRD : String → JSError
  | rangeError : String → JSError
deriving DecidableEq

/-- The message of every bounds `RangeError` the decoder throws, e.g.
`"DS idx (" + v + ") out of range [0-" + bound + ")."` — the same
concatenation shape is used at lines 100, 103, 260 and 306 of the source. -/
def rangeMsg (label : String) (v : Int) (bound : Nat) : String :=
  label ++ " (" ++ toString v ++ ") out of range [0-" ++ toString bound ++ ")."

/-- `RRDDS` (lines 63-66): a data-source view, holding the buffer and the
byte offset of its definition record. -/
structure RRDDS where
  rrd_data : BinaryFile
  rrd_data_idx : Int

/-- `RRDDS.prototype.getName` (line 68). -/
def RRDDS.getName (ds : RRDDS) : String :=
  ds.rrd_data.getCStringAt ds.rrd_data_idx 20

/-- `RRDDS.prototype.getType` (line 71). -/
def RRDDS.getType (ds : RRDDS) : String :=
  ds.rrd_data.getCStringAt (ds.rrd_data_idx + 20) 20

/-- `RRDDS.prototype.getMin` (line 74). -/
def RRDDS.getMin (ds : RRDDS) : DoubleVal :=
  ds.rrd_data.getDoubleAt (ds.rrd_data_idx + 48)

/-- `RRDDS.prototype.getMax` (line 77). -/
def RRDDS.getMax (ds : RRDDS) : DoubleVal :=
  ds.rrd_data.getDoubleAt (ds.rrd_data_idx + 56)

/-- The state of an `RRDRRA` archive view: the variables the `RRDRRA`
constructor (lines 84-90) closes over.  `row_size`, `base_rrd_db_idx` and
`cur_row` are computed by the constructor (`RRDRRA.make`); the rest are its
arguments stored as-is. -/
structure RRDRRA where
  rrd_data : BinaryFile
  rrd_align : Nat
  rra_def_idx : Int
  rra_ptr_idx : Int
  row_size : Nat
  base_rrd_db_idx : Int
  cur_row : Nat
  row_cnt : Nat
  prev_row_cnts : Nat
  ds_cnt : Nat
  pdp_step : Nat

/-- The `RRDRRA` constructor (lines 84-90): `row_size = ds_cnt*8`,
`base_rrd_db_idx = header_size + prev_row_cnts*row_size`, and the head
pointer `cur_row` is read immediately from the archive-pointer offset. -/
def RRDRRA.make (rrd_data : BinaryFile) (rrd_align : Nat)
    (rra_def_idx rra_ptr_idx : Int) (header_size : Int)
    (row_cnt prev_row_cnts ds_cnt pdp_step : Nat) : RRDRRA :=
  { rrd_data := rrd_data
    rrd_align := rrd_align
    rra_def_idx := rra_def_idx
    rra_ptr_idx := rra_ptr_idx
    row_size := ds_cnt * 8
    base_rrd_db_idx := header_size + (prev_row_cnts * (ds_cnt * 8) : Nat)
    cur_row := rrd_data.getLongAt rra_ptr_idx
    row_cnt := row_cnt
    prev_row_cnts := prev_row_cnts
    ds_cnt := ds_cnt
    pdp_step := pdp_step }

/-- `calc_idx` (lines 92-105): bounds-check the row and data-source indices,
rotate the row index by the head pointer (`real_row_idx = row_idx+cur_row+1`,
reduced by one subtraction of `row_cnt` when it reaches `row_cnt`), and
return the byte offset of the cell within this archive's sample slice.
Note: in the data-source branch the source interpolates `row_idx` (not
`ds_idx`) into the message, exactly as line 100 does. -/
def RRDRRA.calc_idx (rra : RRDRRA) (row_idx ds_idx : Int) : Except JSError Int :=
  if 0 ≤ row_idx ∧ row_idx < (rra.row_cnt : Int) then
    if 0 ≤ ds_idx ∧ ds_idx < (rra.ds_cnt : Int) then
      let real_row_idx : Int := row_idx + rra.cur_row + 1
      let real_row_idx : Int :=
        if (rra.row_cnt : Int) ≤ real_row_idx then real_row_idx - rra.row_cnt
        else real_row_idx
      .ok ((rra.row_size : Int) * real_row_idx + ds_idx * 8)
    else .error (.rangeError (rangeMsg "DS idx" row_idx rra.ds_cnt))
  else .error (.rangeError (rangeMsg "Row idx" row_idx rra.row_cnt))

/-- `RRDRRA.getEl` (lines 130-132): full-precision double read at
`base_rrd_db_idx + calc_idx(row_idx, ds_idx)`. -/
def RRDRRA.getEl (rra : RRDRRA) (row_idx ds_idx : Int) : Except JSError DoubleVal :=
  (rra.calc_idx row_idx ds_idx).map fun v =>
    rra.rrd_data.getDoubleAt (rra.base_rrd_db_idx + v)

/-- `RRDRRA.getElFast` (lines 134-136): reduced-precision double read at the
same offset expression. -/
def RRDRRA.getElFast (rra : RRDRRA) (row_idx ds_idx : Int) : Except JSError DoubleVal :=
  (rra.calc_idx row_idx ds_idx).map fun v =>
    rra.rrd_data.getFastDoubleAt (rra.base_rrd_db_idx + v)

/-- `getEl` as a state transformer on the view.  The body of `getEl`
(lines 130-132) is a single read expression that assigns to none of the
variables the view closes over, so the resulting view state is the input
view unchanged. -/
def RRDRRA.getEl_step (rra : RRDRRA) (row_idx ds_idx : Int) :
    Except JSError DoubleVal × RRDRRA :=
  (rra.getEl row_idx ds_idx, rra)

/-- `RRDRRA.getNrRows` (line 123). -/
def RRDRRA.getNrRows (rra : RRDRRA) : Nat := rra.row_cnt

/-- `RRDRRA.getNrDSs` (line 126). -/
def RRDRRA.getNrDSs (rra : RRDRRA) : Nat := rra.ds_cnt

/-- `RRDRRA.getPdpPerRow` (lines 113-118). -/
def RRDRRA.getPdpPerRow (rra : RRDRRA) : Nat :=
  if rra.rrd_align = 32 then rra.rrd_data.getLongAt (rra.rra_def_idx + 24)
  else rra.rrd_data.getLongAt (rra.rra_def_idx + 32)

/-- `validate_rrd` (lines 149-164): magic check at offset 0, version string
at offset 4 (accepted iff `"0003"` or `"0004"`), then the alignment sentinel
`8.642135e+130` probed at offset 12 (32-bit) and offset 16 (64-bit).
Returns the version string and the alignment on success. -/
def validate_rrd (rrd_data : BinaryFile) : Except JSError (String × Nat) :=
  if rrd_data.getCStringAt 0 4 ≠ "RRD" then
    .error (.invalidRRD "Wrong magic id.")
  else if rrd_data.getCStringAt 4 5 ≠ "0003" ∧ rrd_data.getCStringAt 4 5 ≠ "0004" then
    .error (.invalidRRD ("Unsupported RRD version " ++ rrd_data.getCStringAt 4 5 ++ "."))
  else if rrd_data.getDoubleAt 12 = DoubleVal.cookie then
    .ok (rrd_data.getCStringAt 4 5, 32)
  else if rrd_data.getDoubleAt 16 = DoubleVal.cookie then
    .ok (rrd_data.getCStringAt 4 5, 64)
  else
    .error (.invalidRRD "Unsupported platform.")

/-- The three counters and the fixed top-header size `load_header`
(lines 167-182) reads at alignment-dependent offsets. -/
structure Counters where
  ds_cnt : Nat
  rra_cnt : Nat
  pdp_step : Nat
  top_header_size : Nat

/-- `load_header` (lines 167-182): counters at offsets 20/24/28 and top
header size 112 under 32-bit alignment, offsets 24/32/40 and size 128
under 64-bit alignment. -/
def load_header (rrd_data : BinaryFile) (rrd_align : Nat) : Counters :=
  if rrd_align = 32 then
    { ds_cnt := rrd_data.getLongAt 20
      rra_cnt := rrd_data.getLongAt 24
      pdp_step := rrd_data.getLongAt 28
      top_header_size := 112 }
  else
    { ds_cnt := rrd_data.getLongAt 24
      rra_cnt := rrd_data.getLongAt 32
      pdp_step := rrd_data.getLongAt 40
      top_header_size := 128 }

/-- The fields of a constructed `RRDHeader` (lines 141-226). -/
structure RRDHeader where
  rrd_data : BinaryFile
  rrd_version : String
  rrd_align : Nat
  ds_cnt : Nat
  rra_cnt : Nat
  pdp_step : Nat
  top_header_size : Nat
  ds_def_idx : Nat
  ds_el_size : Nat
  rra_def_idx : Nat
  rra_def_el_size : Nat
  row_cnt_idx : Nat
  live_head_idx : Nat
  live_head_size : Nat
  pdp_prep_idx : Nat
  pdp_prep_el_size : Nat
  cdp_prep_idx : Nat
  cdp_prep_el_size : Nat
  rra_ptr_idx : Nat
  rra_ptr_el_size : Nat
  header_size : Nat

/-- `calc_idxs` (lines 185-226): each section offset is the previous section
offset plus the previous element size times the previous element count. -/
def calc_idxs (rrd_data : BinaryFile) (rrd_version : String) (rrd_align : Nat)
    (c : Counters) : RRDHeader :=
  let ds_def_idx := c.top_header_size
  let ds_el_size := 120
  let rra_def_idx := ds_def_idx + ds_el_size * c.ds_cnt
  let rra_def_el_size := if rrd_align = 32 then 108 else 120
  let row_cnt_idx := if rrd_align = 32 then 20 else 24
  let live_head_idx := rra_def_idx + rra_def_el_size * c.rra_cnt
  let live_head_size := if rrd_align = 32 then 8 else 16
  let pdp_prep_idx := live_head_idx + live_head_size
  let pdp_prep_el_size := 112
  let cdp_prep_idx := pdp_prep_idx + pdp_prep_el_size * c.ds_cnt
  let cdp_prep_el_size := 80
  let rra_ptr_idx := cdp_prep_idx + cdp_prep_el_size * c.ds_cnt * c.rra_cnt
  let rra_ptr_el_size := if rrd_align = 32 then 4 else 8
  let header_size := rra_ptr_idx + rra_ptr_el_size * c.rra_cnt
  { rrd_data := rrd_data
    rrd_version := rrd_version
    rrd_align := rrd_align
    ds_cnt := c.ds_cnt
    rra_cnt := c.rra_cnt
    pdp_step := c.pdp_step
    top_header_size := c.top_header_size
    ds_def_idx := ds_def_idx
    ds_el_size := ds_el_size
    rra_def_idx := rra_def_idx
    rra_def_el_size := rra_def_el_size
    row_cnt_idx := row_cnt_idx
    live_head_idx := live_head_idx
    live_head_size := live_head_size
    pdp_prep_idx := pdp_prep_idx
    pdp_prep_el_size := pdp_prep_el_size
    cdp_prep_idx := cdp_prep_idx
    cdp_prep_el_size := cdp_prep_el_size
    rra_ptr_idx := rra_ptr_idx
    rra_ptr_el_size := rra_ptr_el_size
    header_size := header_size }

/-- The `RRDHeader` constructor (lines 141-146): validate, load the
counters, compute the offsets.  A validation failure propagates and no
header value is produced. -/
def RRDHeader.make (rrd_data : BinaryFile) : Except JSError RRDHeader := do
  let va ← validate_rrd rrd_data
  .ok (calc_idxs rrd_data va.1 va.2 (load_header rrd_data va.2))

/-- The row count of archive `i`, read by `load_row_cnts` (line 234) at the
archive's definition offset plus the alignment-dependent sub-offset. -/
def rra_row_cnt_at (h : RRDHeader) (i : Nat) : Nat :=
  h.rrd_data.getLongAt (h.rra_def_idx + i * h.rra_def_el_size + h.row_cnt_idx)

/-- The running sum `rra_def_row_cnt_sums[i]` of `load_row_cnts`
(lines 235-239): `sums[0] = 0` and `sums[i] = sums[i-1] + cnts[i-1]`. -/
def rra_row_cnt_sum (h : RRDHeader) : Nat → Nat
  | 0 => 0
  | i + 1 => rra_row_cnt_sum h i + rra_row_cnt_at h i

/-- `load_row_cnts` (lines 230-241): the arrays `rra_def_row_cnts` and
`rra_def_row_cnt_sums`, indexed by archive index `0 ≤ i < rra_cnt`. -/
def load_row_cnts (h : RRDHeader) : List Nat × List Nat :=
  ((List.range h.rra_cnt).map (rra_row_cnt_at h),
   (List.range h.rra_cnt).map (rra_row_cnt_sum h))

/-- `RRDHeader.getDS` (lines 256-262): bounds-checked construction of a
data-source view at `ds_def_idx + ds_el_size*idx`. -/
def RRDHeader.getDS (h : RRDHeader) (idx : Int) : Except JSError RRDDS :=
  if 0 ≤ idx ∧ idx < (h.ds_cnt : Int) then
    .ok { rrd_data := h.rrd_data
          rrd_data_idx := (h.ds_def_idx : Int) + (h.ds_el_size : Int) * idx }
  else .error (.rangeError (rangeMsg "DS idx" idx h.ds_cnt))

/-- The state of an `RRDFile` (lines 270-310): the header plus the row
counts loaded by `load_row_cnts` at construction. -/
structure RRDFileV where
  rrd_data : BinaryFile
  rrd_header : RRDHeader
  rra_def_row_cnts : List Nat
  rra_def_row_cnt_sums : List Nat

/-- The `RRDFile` constructor (lines 270-274): build the header, then load
the per-archive row counts. -/
def RRDFileV.make (bf : BinaryFile) : Except JSError RRDFileV := do
  let h ← RRDHeader.make bf
  let p := load_row_cnts h
  .ok { rrd_data := bf
        rrd_header := h
        rra_def_row_cnts := p.1
        rra_def_row_cnt_sums := p.2 }

/-- `RRDFile.getRRA` (lines 297-308): bounds-checked construction of an
archive view from the header's per-archive offsets, row count and prefix
sum. -/
def RRDFileV.getRRA (f : RRDFileV) (idx : Int) : Except JSError RRDRRA :=
  if 0 ≤ idx ∧ idx < (f.rrd_header.rra_cnt : Int) then
    .ok (RRDRRA.make f.rrd_data f.rrd_header.rrd_align
      ((f.rrd_header.rra_def_idx : Int) + idx * f.rrd_header.rra_def_el_size)
      ((f.rrd_header.rra_ptr_idx : Int) + idx * f.rrd_header.rra_ptr_el_size)
      (f.rrd_header.header_size : Int)
      (f.rra_def_row_cnts.getD idx.toNat 0)
      (f.rra_def_row_cnt_sums.getD idx.toNat 0)
      f.rrd_header.ds_cnt f.rrd_header.pdp_step)
  else .error (.rangeError (rangeMsg "RRA idx" idx f.rrd_header.rra_cnt))

/-- `RRDFile.getDS` (line 289) forwards to the header. -/
def RRDFileV.getDS (f : RRDFileV) (idx : Int) : Except JSError RRDDS :=
  f.rrd_header.getDS idx

/-- An index lookup performed against an `RRDFile`. -/
inductive Lookup where
  | ds : Int → Lookup
  | rra : Int → Lookup

/-- The value a lookup returns. -/
inductive LookupResult where
  | dsV : Except JSError RRDDS → LookupResult
  | rraV : Except JSError RRDRRA → LookupResult

/-- One lookup as a state transformer on the `RRDFile`.  The bodies of
`getDS` (lines 256-262) and `getRRA` (lines 297-308) read header fields and
construct a view; neither assigns to any field of the header or the file,
so the resulting file state is the input state unchanged. -/
def runLookup (f : RRDFileV) : Lookup → LookupResult × RRDFileV
  | .ds idx => (.dsV (f.getDS idx), f)
  | .rra idx => (.rraV (f.getRRA idx), f)

/-- A concrete buffer whose unsigned-long reads all return 3: used to build
an archive view with head pointer `cur_row = 3`. -/
def rraBF : BinaryFile :=
  { getByteAt := fun _ => 0
    getShortAt := fun _ => 0
    getLongAt := fun _ => 3
    getDoubleAt := fun _ => .other 0
    getFastDoubleAt := fun _ => .other 0
    getCStringAt := fun _ _ => "" }

/-- Archive view with `row_cnt = 10`, `ds_cnt = 2`, `cur_row = 3`
(`row_size = 16`, `base_rrd_db_idx = 0`). -/
def testRRA : RRDRRA := RRDRRA.make rraBF 32 0 0 0 10 0 2 300

/-- A concrete buffer whose unsigned-long reads all return 10: used to build
an archive view whose head pointer equals its row count. -/
def cexBF : BinaryFile :=
  { getByteAt := fun _ => 0
    getShortAt := fun _ => 0
    getLongAt := fun _ => 10
    getDoubleAt := fun _ => .other 0
    getFastDoubleAt := fun _ => .other 0
    getCStringAt := fun _ _ => "" }

/-- Archive view with `row_cnt = 10`, `ds_cnt = 1` and out-of-range head
pointer `cur_row = 10` (`row_size = 8`, `base_rrd_db_idx = 0`). -/
def cexRRA : RRDRRA := RRDRRA.make cexBF 32 0 0 0 10 0 1 300

lemma calc_idx_in_range (rra : RRDRRA) (r d : Int)
    (hr0 : 0 ≤ r) (hr : r < (rra.row_cnt : Int))
    (hd0 : 0 ≤ d) (hd : d < (rra.ds_cnt : Int)) :
    rra.calc_idx r d =
      .ok ((rra.row_size : Int) *
            (if (rra.row_cnt : Int) ≤ r + rra.cur_row + 1
             then r + rra.cur_row + 1 - rra.row_cnt
             else r + rra.cur_row + 1) + d * 8) := by
  unfold RRDRRA.calc_idx
  rw [if_pos ⟨hr0, hr⟩, if_pos ⟨hd0, hd⟩]

/-- When the head pointer is a physical row index (`cur_row < row_cnt`), the
single conditional subtraction in `calc_idx` computes exactly
`(r + cur_row + 1) % row_cnt`. -/
lemma rotate_eq_emod (rra : RRDRRA) (r : Int)
    (hcur : rra.cur_row < rra.row_cnt)
    (hr0 : 0 ≤ r) (hr : r < (rra.row_cnt : Int)) :
    (if (rra.row_cnt : Int) ≤ r + rra.cur_row + 1
     then r + rra.cur_row + 1 - rra.row_cnt
     else r + rra.cur_row + 1) = (r + rra.cur_row + 1) % (rra.row_cnt : Int) := by
  have hcur' : (rra.cur_row : Int) < (rra.row_cnt : Int) := by exact_mod_cast hcur
  have hcur0 : (0 : Int) ≤ (rra.cur_row : Int) := Int.ofNat_nonneg _
  by_cases hge : (rra.row_cnt : Int) ≤ r + rra.cur_row + 1
  · rw [if_pos hge]
    have h1 : (0 : Int) ≤ r + rra.cur_row + 1 - rra.row_cnt := by omega
    have h2 : r + rra.cur_row + 1 - rra.row_cnt < (rra.row_cnt : Int) := by omega
    conv_rhs =>
      rw [show r + (rra.cur_row : Int) + 1 =
            (r + rra.cur_row + 1 - rra.row_cnt) + (rra.row_cnt : Int) * 1 by ring]
    rw [Int.add_mul_emod_self_left, Int.emod_eq_of_lt h1 h2]
  · rw [if_neg hge]
    exact (Int.emod_eq_of_lt (by omega) (by omega)).symm

lemma calc_idx_emod (rra : RRDRRA) (r d : Int)
    (hcur : rra.cur_row < rra.row_cnt)
    (hr0 : 0 ≤ r) (hr : r < (rra.row_cnt : Int))
    (hd0 : 0 ≤ d) (hd : d < (rra.ds_cnt : Int)) :
    rra.calc_idx r d =
      .ok ((rra.row_size : Int) *
            ((r + rra.cur_row + 1) % (rra.row_cnt : Int)) + d * 8) := by
  rw [calc_idx_in_range rra r d hr0 hr hd0 hd, rotate_eq_emod rra r hcur hr0 hr]

/-- C1 counterexample: the claim quantifies over every archive view, but the
head pointer read at construction is not bounds-checked.  For the view
`cexRRA` (`row_cnt = 10`, `ds_cnt = 1`, `cur_row = 10`), `element(9, 0)`
reads the offset of physical row 10 (`calc_idx = 8*10 = 80`), not the offset
`8 * ((9+10+1) mod 10) = 0` of the claimed physical row. -/
theorem C1_mod_mapping_counterexample :
    cexRRA.calc_idx 9 0 = .ok 80
    ∧ (cexRRA.row_cnt : Int) ≤ (cexRRA.cur_row : Int)
    ∧ (80 : Int) ≠
        (cexRRA.row_size : Int) *
          ((9 + (cexRRA.cur_row : Int) + 1) % (cexRRA.row_cnt : Int)) + 0 * 8 :=
  ⟨rfl, by decide, by decide⟩

/-- C1 (amended): for every archive view whose head pointer is in range
(`cur_row < row_cnt`) and every in-bounds `(r, d)`, `calc_idx` returns the
offset `row_size * ((r + cur_row + 1) mod row_cnt) + d*8`, i.e. `element`
reads physical row `(r + cur_row + 1) mod row_cnt`; in particular the last
logical row `r = row_cnt - 1` maps to physical row `cur_row` (the most
recent sample). -/
theorem C1_circular_mapping (rra : RRDRRA) (r d : Int)
    (hcur : rra.cur_row < rra.row_cnt)
    (hr0 : 0 ≤ r) (hr : r < (rra.row_cnt : Int))
    (hd0 : 0 ≤ d) (hd : d < (rra.ds_cnt : Int)) :
    rra.calc_idx r d =
      .ok ((rra.row_size : Int) *
            ((r + rra.cur_row + 1) % (rra.row_cnt : Int)) + d * 8)
    ∧ (r = (rra.row_cnt : Int) - 1 →
        (r + rra.cur_row + 1) % (rra.row_cnt : Int) = rra.cur_row) := by
  constructor
  · exact calc_idx_emod rra r d hcur hr0 hr hd0 hd
  · intro hlast
    subst hlast
    have hcur' : (rra.cur_row : Int) < (rra.row_cnt : Int) := by exact_mod_cast hcur
    rw [show (rra.row_cnt : Int) - 1 + rra.cur_row + 1 =
          (rra.cur_row : Int) + (rra.row_cnt : Int) * 1 by ring,
        Int.add_mul_emod_self_left,
        Int.emod_eq_of_lt (Int.ofNat_nonneg _) hcur']

/-- C1 witness: on the view with `row_cnt = 10`, `cur_row = 3`, the amended
mapping applies, and concretely `element(9, ds)` reads physical row 3
(offset `16*3`) while `element(0, ds)` reads physical row 4 (offset
`16*4`). -/
theorem C1_circular_mapping_witness :
    testRRA.calc_idx 9 0 =
      .ok ((testRRA.row_size : Int) *
            ((9 + testRRA.cur_row + 1) % (testRRA.row_cnt : Int)) + 0 * 8)
    ∧ testRRA.calc_idx 9 0 = .ok (16 * 3)
    ∧ testRRA.calc_idx 0 0 = .ok (16 * 4) :=
  ⟨(C1_circular_mapping testRRA 9 0 (by decide) (by decide) (by decide)
      (by decide) (by decide)).1, rfl, rfl⟩

/-- C2: evaluation at the failing input.  On the view with `row_cnt = 10`,
`ds_cnt = 2`, the call `element(5, 7)` fails on the data-source index 7,
but the thrown message interpolates the row index 5 — it is exactly the
string built from 5, and differs from the string built from the offending
value 7; so this `IndexOutOfRange` instance does not identify the value
that was passed. -/
theorem C2_ds_error_wrong_value :
    testRRA.calc_idx 5 7 =
      .error (.rangeError (rangeMsg "DS idx" 5 testRRA.ds_cnt))
    ∧ rangeMsg "DS idx" 5 testRRA.ds_cnt = "DS idx (5) out of range [0-2)."
    ∧ rangeMsg "DS idx" 5 testRRA.ds_cnt ≠ rangeMsg "DS idx" 7 testRRA.ds_cnt :=
  ⟨rfl, by decide, by decide⟩

/-- C3: `element` succeeds exactly on in-bounds index pairs, fails with a
`RangeError` on every out-of-bounds one, and a call — failing or not —
leaves the view unchanged, so the same view remains usable afterwards. -/
theorem C3_element_bounds :
    (∀ (rra : RRDRRA) (r d : Int),
        0 ≤ r → r < (rra.row_cnt : Int) → 0 ≤ d → d < (rra.ds_cnt : Int) →
        ∃ v, rra.getEl r d = .ok v)
    ∧ (∀ (rra : RRDRRA) (r d : Int),
        r < 0 ∨ (rra.row_cnt : Int) ≤ r ∨ d < 0 ∨ (rra.ds_cnt : Int) ≤ d →
        ∃ msg, rra.getEl r d = .error (.rangeError msg))
    ∧ (∀ (rra : RRDRRA) (r d r' d' : Int),
        (rra.getEl_step r d).2 = rra
        ∧ ((rra.getEl_step r d).2).getEl r' d' = rra.getEl r' d') := by
  refine ⟨?_, ?_, ?_⟩
  · intro rra r d hr0 hr hd0 hd
    exact ⟨rra.rrd_data.getDoubleAt (rra.base_rrd_db_idx +
        ((rra.row_size : Int) *
          (if (rra.row_cnt : Int) ≤ r + rra.cur_row + 1
           then r + rra.cur_row + 1 - rra.row_cnt
           else r + rra.cur_row + 1) + d * 8)),
      by unfold RRDRRA.getEl
         rw [calc_idx_in_range rra r d hr0 hr hd0 hd]
         rfl⟩
  · intro rra r d hbad
    unfold RRDRRA.getEl RRDRRA.calc_idx
    by_cases hrow : 0 ≤ r ∧ r < (rra.row_cnt : Int)
    · have hds : ¬(0 ≤ d ∧ d < (rra.ds_cnt : Int)) := by
        obtain ⟨h1, h2⟩ := hrow
        intro hd
        obtain ⟨h3, h4⟩ := hd
        rcases hbad with h | h | h | h <;> omega
      rw [if_pos hrow, if_neg hds]
      exact ⟨rangeMsg "DS idx" r rra.ds_cnt, rfl⟩
    · rw [if_neg hrow]
      exact ⟨rangeMsg "Row idx" r rra.row_cnt, rfl⟩
  · intro rra r d r' d'
    exact ⟨rfl, rfl⟩

/-- C10: the head pointer is read at view construction with no bounds
check, and `calc_idx` reduces `r + cur_row + 1` by at most one subtraction
of `row_cnt`.  Under the precondition `cur_row < row_cnt` every in-bounds
logical row maps to the physical row `(r + cur_row + 1) mod row_cnt`, which
lies in `[0, row_cnt)`; without it the computed physical row can reach
`row_cnt`: on `cexRRA` (`cur_row = row_cnt = 10`) logical row 9 yields
physical row 10. -/
theorem C10_head_row_precondition :
    (∀ (rra : RRDRRA) (r d : Int),
        rra.cur_row < rra.row_cnt →
        0 ≤ r → r < (rra.row_cnt : Int) → 0 ≤ d → d < (rra.ds_cnt : Int) →
        rra.calc_idx r d =
          .ok ((rra.row_size : Int) *
                ((r + rra.cur_row + 1) % (rra.row_cnt : Int)) + d * 8)
        ∧ 0 ≤ (r + rra.cur_row + 1) % (rra.row_cnt : Int)
        ∧ (r + rra.cur_row + 1) % (rra.row_cnt : Int) < (rra.row_cnt : Int))
    ∧ ((cexRRA.row_cnt : Int) ≤ (cexRRA.cur_row : Int)
        ∧ cexRRA.calc_idx 9 0 = .ok ((cexRRA.row_size : Int) * 10 + 0 * 8)
        ∧ (cexRRA.row_cnt : Int) ≤ 10) := by
  constructor
  · intro rra r d hcur hr0 hr hd0 hd
    have hpos : (0 : Int) < (rra.row_cnt : Int) := lt_of_le_of_lt hr0 hr
    exact ⟨calc_idx_emod rra r d hcur hr0 hr hd0 hd,
      Int.emod_nonneg _ (ne_of_gt hpos), Int.emod_lt_of_pos _ hpos⟩
  · exact ⟨by decide, rfl, by decide⟩

lemma version_accepted {s : String} (h : s = "0003" ∨ s = "0004") :
    ¬(s ≠ "0003" ∧ s ≠ "0004") := by
  rcases h with h | h
  · exact fun hc => hc.1 h
  · exact fun hc => hc.2 h

/-- A buffer with a wrong 4-byte magic. -/
def badMagicBF : BinaryFile :=
  { getByteAt := fun _ => 0
    getShortAt := fun _ => 0
    getLongAt := fun _ => 0
    getDoubleAt := fun _ => .other 0
    getFastDoubleAt := fun _ => .other 0
    getCStringAt := fun _ _ => "XXX" }

/-- A buffer with valid magic, version `"0003"` and the sentinel at
offset 12. -/
def good32BF : BinaryFile :=
  { getByteAt := fun _ => 0
    getShortAt := fun _ => 0
    getLongAt := fun _ => 0
    getDoubleAt := fun off => if off = 12 then .cookie else .other 0
    getFastDoubleAt := fun _ => .other 0
    getCStringAt := fun off _ => if off = 0 then "RRD" else "0003" }

/-- C4: header validation reads the 4 bytes at offset 0 and fails with the
`InvalidRRD "Wrong magic id."` error unless they are the magic marker; with
a valid magic it reads the 5-byte version string at offset 4, fails with
the `Unsupported RRD version` error for any string other than `"0003"` or
`"0004"`, and for those two either succeeds or fails the later platform
probe — in every failure case the `Except` carries no header value. -/
theorem C4_magic_and_version :
    (∀ bf : BinaryFile, bf.getCStringAt 0 4 ≠ "RRD" →
        validate_rrd bf = .error (.invalidRRD "Wrong magic id."))
    ∧ (∀ bf : BinaryFile, bf.getCStringAt 0 4 = "RRD" →
        bf.getCStringAt 4 5 ≠ "0003" → bf.getCStringAt 4 5 ≠ "0004" →
        validate_rrd bf =
          .error (.invalidRRD
            ("Unsupported RRD version " ++ bf.getCStringAt 4 5 ++ ".")))
    ∧ (∀ bf : BinaryFile, bf.getCStringAt 0 4 = "RRD" →
        (bf.getCStringAt 4 5 = "0003" ∨ bf.getCStringAt 4 5 = "0004") →
        validate_rrd bf = .ok (bf.getCStringAt 4 5, 32)
        ∨ validate_rrd bf = .ok (bf.getCStringAt 4 5, 64)
        ∨ validate_rrd bf = .error (.invalidRRD "Unsupported platform.")) := by
  refine ⟨?_, ?_, ?_⟩
  · intro bf hm
    unfold validate_rrd
    rw [if_pos hm]
  · intro bf hm h3 h4
    unfold validate_rrd
    rw [if_neg (not_not_intro hm), if_pos ⟨h3, h4⟩]
  · intro bf hm hver
    unfold validate_rrd
    rw [if_neg (not_not_intro hm), if_neg (version_accepted hver)]
    by_cases h12 : bf.getDoubleAt 12 = DoubleVal.cookie
    · rw [if_pos h12]
      exact Or.inl rfl
    · rw [if_neg h12]
      by_cases h16 : bf.getDoubleAt 16 = DoubleVal.cookie
      · rw [if_pos h16]
        exact Or.inr (Or.inl rfl)
      · rw [if_neg h16]
        exact Or.inr (Or.inr rfl)

/-- C4 witness: validation of a buffer whose 4 bytes at offset 0 read
`"XXX"` fails with the magic error, and validation of a buffer with magic
`"RRD"`, version `"0003"` and the sentinel at offset 12 does not. -/
theorem C4_magic_and_version_witness :
    validate_rrd badMagicBF = .error (.invalidRRD "Wrong magic id.")
    ∧ (validate_rrd good32BF = .ok (good32BF.getCStringAt 4 5, 32)
        ∨ validate_rrd good32BF = .ok (good32BF.getCStringAt 4 5, 64)
        ∨ validate_rrd good32BF = .error (.invalidRRD "Unsupported platform.")) :=
  ⟨(C4_magic_and_version.1 badMagicBF (by decide)),
   (C4_magic_and_version.2.2 good32BF (by decide) (Or.inl (by decide)))⟩

/-- C5: with valid magic and version, the sentinel double `8.642135e+130`
is probed at offset 12 — if it matches, validation succeeds with 32-bit
alignment; otherwise it is probed at offset 16 — if it matches, validation
succeeds with 64-bit alignment; if neither matches, construction fails with
the `Unsupported platform.` error. -/
theorem C5_alignment_detection :
    (∀ bf : BinaryFile, bf.getCStringAt 0 4 = "RRD" →
        (bf.getCStringAt 4 5 = "0003" ∨ bf.getCStringAt 4 5 = "0004") →
        bf.getDoubleAt 12 = DoubleVal.cookie →
        validate_rrd bf = .ok (bf.getCStringAt 4 5, 32))
    ∧ (∀ bf : BinaryFile, bf.getCStringAt 0 4 = "RRD" →
        (bf.getCStringAt 4 5 = "0003" ∨ bf.getCStringAt 4 5 = "0004") →
        bf.getDoubleAt 12 ≠ DoubleVal.cookie →
        bf.getDoubleAt 16 = DoubleVal.cookie →
        validate_rrd bf = .ok (bf.getCStringAt 4 5, 64))
    ∧ (∀ bf : BinaryFile, bf.getCStringAt 0 4 = "RRD" →
        (bf.getCStringAt 4 5 = "0003" ∨ bf.getCStringAt 4 5 = "0004") →
        bf.getDoubleAt 12 ≠ DoubleVal.cookie →
        bf.getDoubleAt 16 ≠ DoubleVal.cookie →
        validate_rrd bf = .error (.invalidRRD "Unsupported platform.")) := by
  refine ⟨?_, ?_, ?_⟩
  · intro bf hm hver h12
    unfold validate_rrd
    rw [if_neg (not_not_intro hm), if_neg (version_accepted hver), if_pos h12]
  · intro bf hm hver h12 h16
    unfold validate_rrd
    rw [if_neg (not_not_intro hm), if_neg (version_accepted hver),
      if_neg h12, if_pos h16]
  · intro bf hm hver h12 h16
    unfold validate_rrd
    rw [if_neg (not_not_intro hm), if_neg (version_accepted hver),
      if_neg h12, if_neg h16]

/-- C5 witness: the buffer with the sentinel at offset 12 only validates as
32-bit. -/
theorem C5_alignment_detection_witness :
    validate_rrd good32BF = .ok (good32BF.getCStringAt 4 5, 32) :=
  C5_alignment_detection.1 good32BF (by decide) (Or.inl (by decide)) (by decide)

/-- C6: the section offsets computed by `calc_idxs` from the counters
`load_header` reads are strictly sequential — data-source definitions start
at the top header size (112 under 32-bit alignment, 128 under 64-bit), and
each later section start is the previous start plus the previous element
size times the previous element count, with the element sizes the claim
lists; the offsets form a non-decreasing chain ending at `header_size`,
the start of sample storage. -/
theorem C6_sequential_offsets (bf : BinaryFile) (v : String) (align : Nat) :
    ((load_header bf align).top_header_size = if align = 32 then 112 else 128)
    ∧ (calc_idxs bf v align (load_header bf align)).ds_def_idx
        = (load_header bf align).top_header_size
    ∧ (calc_idxs bf v align (load_header bf align)).ds_el_size = 120
    ∧ (calc_idxs bf v align (load_header bf align)).rra_def_idx
        = (calc_idxs bf v align (load_header bf align)).ds_def_idx
          + 120 * (load_header bf align).ds_cnt
    ∧ ((calc_idxs bf v align (load_header bf align)).rra_def_el_size
        = if align = 32 then 108 else 120)
    ∧ (calc_idxs bf v align (load_header bf align)).live_head_idx
        = (calc_idxs bf v align (load_header bf align)).rra_def_idx
          + (calc_idxs bf v align (load_header bf align)).rra_def_el_size
            * (load_header bf align).rra_cnt
    ∧ ((calc_idxs bf v align (load_header bf align)).live_head_size
        = if align = 32 then 8 else 16)
    ∧ (calc_idxs bf v align (load_header bf align)).pdp_prep_idx
        = (calc_idxs bf v align (load_header bf align)).live_head_idx
          + (calc_idxs bf v align (load_header bf align)).live_head_size
    ∧ (calc_idxs bf v align (load_header bf align)).pdp_prep_el_size = 112
    ∧ (calc_idxs bf v align (load_header bf align)).cdp_prep_idx
        = (calc_idxs bf v align (load_header bf align)).pdp_prep_idx
          + 112 * (load_header bf align).ds_cnt
    ∧ (calc_idxs bf v align (load_header bf align)).cdp_prep_el_size = 80
    ∧ (calc_idxs bf v align (load_header bf align)).rra_ptr_idx
        = (calc_idxs bf v align (load_header bf align)).cdp_prep_idx
          + 80 * (load_header bf align).ds_cnt * (load_header bf align).rra_cnt
    ∧ ((calc_idxs bf v align (load_header bf align)).rra_ptr_el_size
        = if align = 32 then 4 else 8)
    ∧ (calc_idxs bf v align (load_header bf align)).header_size
        = (calc_idxs bf v align (load_header bf align)).rra_ptr_idx
          + (calc_idxs bf v align (load_header bf align)).rra_ptr_el_size
            * (load_header bf align).rra_cnt
    ∧ (calc_idxs bf v align (load_header bf align)).ds_def_idx
        ≤ (calc_idxs bf v align (load_header bf align)).rra_def_idx
    ∧ (calc_idxs bf v align (load_header bf align)).rra_def_idx
        ≤ (calc_idxs bf v align (load_header bf align)).live_head_idx
    ∧ (calc_idxs bf v align (load_header bf align)).live_head_idx
        ≤ (calc_idxs bf v align (load_header bf align)).pdp_prep_idx
    ∧ (calc_idxs bf v align (load_header bf align)).pdp_prep_idx
        ≤ (calc_idxs bf v align (load_header bf align)).cdp_prep_idx
    ∧ (calc_idxs bf v align (load_header bf align)).cdp_prep_idx
        ≤ (calc_idxs bf v align (load_header bf align)).rra_ptr_idx
    ∧ (calc_idxs bf v align (load_header bf align)).rra_ptr_idx
        ≤ (calc_idxs bf v align (load_header bf align)).header_size := by
  refine ⟨?_, rfl, rfl, rfl, rfl, rfl, rfl, rfl, rfl, rfl, rfl, rfl, rfl, rfl,
    Nat.le_add_right _ _, Nat.le_add_right _ _, Nat.le_add_right _ _,
    Nat.le_add_right _ _, Nat.le_add_right _ _, Nat.le_add_right _ _⟩
  by_cases ha : align = 32 <;> simp [load_header, ha]

lemma rra_row_cnt_sum_eq (h : RRDHeader) :
    ∀ i, rra_row_cnt_sum h i = ∑ j ∈ Finset.range i, rra_row_cnt_at h j := by
  intro i
  induction i with
  | zero => simp [rra_row_cnt_sum]
  | succ n ih => rw [rra_row_cnt_sum, Finset.sum_range_succ, ih]

/-- A buffer giving a header with `ds_cnt = 2`, `rra_cnt = 3`,
`pdp_step = 300` under 32-bit alignment; every other unsigned-long read
(in particular each per-archive row count) returns 5. -/
def hdrBF : BinaryFile :=
  { getByteAt := fun _ => 0
    getShortAt := fun _ => 0
    getLongAt := fun off =>
      if off = 20 then 2 else if off = 24 then 3 else if off = 28 then 300 else 5
    getDoubleAt := fun off => if off = 12 then .cookie else .other 0
    getFastDoubleAt := fun _ => .other 0
    getCStringAt := fun off _ => if off = 0 then "RRD" else "0003" }

/-- The header decoded from `hdrBF`, exactly as `RRDHeader.make` builds it
on its success path. -/
def testHeader : RRDHeader := calc_idxs hdrBF "0003" 32 (load_header hdrBF 32)

/-- C7: for every archive index `i < rra_cnt`, `load_row_cnts` stores in
`rra_def_row_cnts[i]` the unsigned long read at that archive's definition
offset plus the alignment-dependent row-count sub-offset, and in
`rra_def_row_cnt_sums[i]` the sum of the row counts of all preceding
archives (0 for `i = 0`). -/
theorem C7_row_counts_and_sums (h : RRDHeader) (i : Nat) (hi : i < h.rra_cnt) :
    (load_row_cnts h).1.get? i =
      some (h.rrd_data.getLongAt
        (h.rra_def_idx + i * h.rra_def_el_size + h.row_cnt_idx))
    ∧ (load_row_cnts h).2.get? i =
      some (∑ j ∈ Finset.range i,
        h.rrd_data.getLongAt
          (h.rra_def_idx + j * h.rra_def_el_size + h.row_cnt_idx)) := by
  constructor
  · show ((List.range h.rra_cnt).map (rra_row_cnt_at h)).get? i = _
    rw [List.get?_map, List.get?_range hi]
    rfl
  · show ((List.range h.rra_cnt).map (rra_row_cnt_sum h)).get? i = _
    rw [List.get?_map, List.get?_range hi]
    show some (rra_row_cnt_sum h i) = _
    rw [rra_row_cnt_sum_eq h i]
    rfl

/-- C7 witness: on `testHeader` (`rra_cnt = 3`), the third entry of the
prefix-sum array is the sum of the first two row counts. -/
theorem C7_row_counts_and_sums_witness :
    ((load_row_cnts testHeader).2.get? 2 =
      some (∑ j ∈ Finset.range 2,
        testHeader.rrd_data.getLongAt
          (testHeader.rra_def_idx + j * testHeader.rra_def_el_size
            + testHeader.row_cnt_idx)))
    ∧ (load_row_cnts testHeader).2.get? 2 = some 10 :=
  ⟨(C7_row_counts_and_sums testHeader 2 (by decide)).2, by decide⟩

/-- C8: for every in-bounds `(r, d)` pair, `getEl` and `getElFast` read at
the identical byte offset
`header_size + prev_row_cnts*row_size + row_size*phys + d*8` (with
`row_size = ds_cnt*8` and `phys` the circularly mapped physical row), and
differ only in which primitive read — `getDoubleAt` versus
`getFastDoubleAt` — is applied at that offset. -/
theorem C8_offset_agreement (bf : BinaryFile) (align : Nat)
    (rdi rpi hsz : Int) (row_cnt prev ds_cnt step : Nat) (r d : Int)
    (hr0 : 0 ≤ r) (hr : r < (row_cnt : Int)) (hd0 : 0 ≤ d)
    (hd : d < (ds_cnt : Int)) :
    ∃ phys : Int,
      (RRDRRA.make bf align rdi rpi hsz row_cnt prev ds_cnt step).calc_idx r d
        = .ok (((ds_cnt : Int) * 8) * phys + d * 8)
      ∧ (RRDRRA.make bf align rdi rpi hsz row_cnt prev ds_cnt step).getEl r d
        = .ok (bf.getDoubleAt
            (hsz + (prev : Int) * ((ds_cnt : Int) * 8)
              + ((ds_cnt : Int) * 8) * phys + d * 8))
      ∧ (RRDRRA.make bf align rdi rpi hsz row_cnt prev ds_cnt step).getElFast r d
        = .ok (bf.getFastDoubleAt
            (hsz + (prev : Int) * ((ds_cnt : Int) * 8)
              + ((ds_cnt : Int) * 8) * phys + d * 8)) := by
  have h1 :
      (RRDRRA.make bf align rdi rpi hsz row_cnt prev ds_cnt step).calc_idx r d
        = .ok (((ds_cnt * 8 : Nat) : Int) *
            (if (row_cnt : Int) ≤ r + (bf.getLongAt rpi : Int) + 1
             then r + (bf.getLongAt rpi : Int) + 1 - row_cnt
             else r + (bf.getLongAt rpi : Int) + 1) + d * 8) :=
    calc_idx_in_range _ r d hr0 hr hd0 hd
  refine ⟨if (row_cnt : Int) ≤ r + (bf.getLongAt rpi : Int) + 1
          then r + (bf.getLongAt rpi : Int) + 1 - row_cnt
          else r + (bf.getLongAt rpi : Int) + 1, ?_, ?_, ?_⟩
  · rw [h1]
    congr 1
  · have h2 :
        (RRDRRA.make bf align rdi rpi hsz row_cnt prev ds_cnt step).getEl r d
          = .ok (bf.getDoubleAt
              ((hsz + ((prev * (ds_cnt * 8) : Nat) : Int))
                + (((ds_cnt * 8 : Nat) : Int) *
                    (if (row_cnt : Int) ≤ r + (bf.getLongAt rpi : Int) + 1
                     then r + (bf.getLongAt rpi : Int) + 1 - row_cnt
                     else r + (bf.getLongAt rpi : Int) + 1) + d * 8))) := by
      unfold RRDRRA.getEl
      rw [h1]
      rfl
    rw [h2]
    congr 1
    all_goals congr 1
    all_goals push_cast
    all_goals ring
  · have h3 :
        (RRDRRA.make bf align rdi rpi hsz row_cnt prev ds_cnt step).getElFast r d
          = .ok (bf.getFastDoubleAt
              ((hsz + ((prev * (ds_cnt * 8) : Nat) : Int))
                + (((ds_cnt * 8 : Nat) : Int) *
                    (if (row_cnt : Int) ≤ r + (bf.getLongAt rpi : Int) + 1
                     then r + (bf.getLongAt rpi : Int) + 1 - row_cnt
                     else r + (bf.getLongAt rpi : Int) + 1) + d * 8))) := by
      unfold RRDRRA.getElFast
      rw [h1]
      rfl
    rw [h3]
    congr 1
    all_goals congr 1
    all_goals push_cast
    all_goals ring

/-- C8 witness: on the concrete view `testRRA` the two read variants
resolve to the same concrete offset. -/
theorem C8_offset_agreement_witness :
    ∃ phys : Int,
      testRRA.calc_idx 1 1 = .ok (((2 : Int) * 8) * phys + 1 * 8)
      ∧ testRRA.getEl 1 1
          = .ok (rraBF.getDoubleAt
              ((0 : Int) + (0 : Int) * ((2 : Int) * 8)
                + ((2 : Int) * 8) * phys + 1 * 8))
      ∧ testRRA.getElFast 1 1
          = .ok (rraBF.getFastDoubleAt
              ((0 : Int) + (0 : Int) * ((2 : Int) * 8)
                + ((2 : Int) * 8) * phys + 1 * 8)) :=
  C8_offset_agreement rraBF 32 0 0 0 10 0 2 300 1 1
    (by decide) (by decide) (by decide) (by decide)

/-- C9: index lookups are pure reads — for any file state, performing
`dataSource(i)` and `archive(j)` in either order yields identical results
for each, a repeated lookup yields the identical view again, and no header
field (nor any other file state) is mutated by a lookup. -/
theorem C9_lookup_order_independence (f : RRDFileV) (i j : Int) :
    (runLookup f (.ds i)).1 = (runLookup ((runLookup f (.rra j)).2) (.ds i)).1
    ∧ (runLookup f (.rra j)).1 = (runLookup ((runLookup f (.ds i)).2) (.rra j)).1
    ∧ (runLookup ((runLookup f (.ds i)).2) (.rra j)).2 = f
    ∧ (runLookup ((runLookup f (.rra j)).2) (.ds i)).2 = f
    ∧ (runLookup ((runLookup f (.ds i)).2) (.ds i)).1 = (runLookup f (.ds i)).1 :=
  ⟨rfl, rfl, rfl, rfl, rfl⟩
